import Mathlib

/-!
A shallow embedding of src/resonator/base.py: the ResonatorFitter class, the
model classes it composes, and the derived-quantity properties, together with
proofs checking the specification claims about them.  Frequencies and
parameter values are modelled as rationals, complex scattering values as pairs
of rationals, and the IEEE special values needed by the error/weight arrays as
an extended-rational type.  The external lmfit optimizer is an explicit
function parameter, and Python exceptions are modelled with Except.
-/

namespace Resonator

/-- Extended real scalar: a finite rational, an infinity, or nan.  Models the
IEEE floating-point values appearing in numpy error arrays (the repository
documents setting an error component to (1+1j)*inf to exclude a point).
Signed zeros are collapsed to 0. -/
inductive RV
  | fin (q : ℚ)
  | inf
  | ninf
  | nan
deriving DecidableEq

/-- IEEE-style division, used for the elementwise 1/errors.real and
1j/errors.imag in the ResonatorFitter.weights property. -/
def RV.div : RV → RV → RV
  | RV.nan, _ => RV.nan
  | _, RV.nan => RV.nan
  | RV.fin a, RV.fin b =>
      if b = 0 then (if a = 0 then RV.nan else if 0 < a then RV.inf else RV.ninf)
      else RV.fin (a / b)
  | RV.fin _, RV.inf => RV.fin 0
  | RV.fin _, RV.ninf => RV.fin 0
  | RV.inf, RV.fin b => if 0 ≤ b then RV.inf else RV.ninf
  | RV.ninf, RV.fin b => if 0 ≤ b then RV.ninf else RV.inf
  | RV.inf, RV.inf => RV.nan
  | RV.inf, RV.ninf => RV.nan
  | RV.ninf, RV.inf => RV.nan
  | RV.ninf, RV.ninf => RV.nan

/-- IEEE-style multiplication, used only to express the documented exclusion
value (1+1j)*inf. -/
def RV.mul : RV → RV → RV
  | RV.nan, _ => RV.nan
  | _, RV.nan => RV.nan
  | RV.fin a, RV.fin b => RV.fin (a * b)
  | RV.fin a, RV.inf => if a = 0 then RV.nan else if 0 < a then RV.inf else RV.ninf
  | RV.fin a, RV.ninf => if a = 0 then RV.nan else if 0 < a then RV.ninf else RV.inf
  | RV.inf, RV.fin b => if b = 0 then RV.nan else if 0 < b then RV.inf else RV.ninf
  | RV.ninf, RV.fin b => if b = 0 then RV.nan else if 0 < b then RV.ninf else RV.inf
  | RV.inf, RV.inf => RV.inf
  | RV.inf, RV.ninf => RV.ninf
  | RV.ninf, RV.inf => RV.ninf
  | RV.ninf, RV.ninf => RV.inf

/-- A complex measurement error value; components may be infinite. -/
structure CE where
  re : RV
  im : RV
deriving DecidableEq

/-- A numpy complex value multiplied by a real scalar, componentwise. -/
def CE.mulFloat (z : CE) (s : RV) : CE := CE.mk (RV.mul z.re s) (RV.mul z.im s)

/-- A finite complex scattering value, as a pair of rationals. -/
structure CQ where
  re : ℚ
  im : ℚ
deriving DecidableEq

def CQ.mul (z w : CQ) : CQ :=
  CQ.mk (z.re * w.re - z.im * w.im) (z.re * w.im + z.im * w.re)

def CQ.div (z w : CQ) : CQ :=
  CQ.mk ((z.re * w.re + z.im * w.im) / (w.re ^ 2 + w.im ^ 2))
        ((z.im * w.re - z.re * w.im) / (w.re ^ 2 + w.im ^ 2))

/-- One lmfit Parameter: best-fit value, optional standard error (stderr is
None before errors are computed), optional bounds. -/
structure ParamVal where
  value : ℚ
  stderr : Option ℚ
  pmin : Option ℚ
  pmax : Option ℚ
deriving DecidableEq

/-- An lmfit Parameters object, modelled as a name-keyed association list in
which earlier entries shadow later ones. -/
structure Params where
  entries : List (String × ParamVal)
deriving DecidableEq

/-- Dictionary lookup; a missing name is the KeyError case. -/
def Params.lookup (ps : Params) (n : String) : Option ParamVal :=
  (ps.entries.find? (fun e => e.1 == n)).map (fun e => e.2)

/-- Parameters.update: entries of q override entries of p on a name clash. -/
def Params.update (p q : Params) : Params := Params.mk (q.entries ++ p.entries)

/-- First-some choice on optional values, for stating update semantics. -/
def optOr {α : Type} : Option α → Option α → Option α
  | some v, _ => some v
  | none, b => b

/-- A foreground model instance (base.py ResonatorModel): its evaluation and
guessing behaviour belongs to concrete subclasses, so it is carried as data,
together with the class constant reference_point. -/
structure ResonatorModel where
  reference_point : CQ
  eval : List ℚ → Params → List CQ
  guess : List CQ → List ℚ → Params

/-- A background model instance (base.py BackgroundModel). -/
structure BackgroundModel where
  eval : List ℚ → Params → List CQ
  guess : List CQ → List ℚ → Params

/-- The lmfit CompositeModel built by background_model * foreground_model
in ResonatorFitter.__init__. -/
structure CompositeModel where
  left : BackgroundModel
  right : ResonatorModel

/-- CompositeModel evaluation: elementwise product of the two factors. -/
def CompositeModel.eval (m : CompositeModel) (frequency : List ℚ) (params : Params) : List CQ :=
  List.zipWith CQ.mul (m.left.eval frequency params) (m.right.eval frequency params)

/-- An lmfit ModelResult: the final parameters (with standard errors) and the
retained initial parameters. -/
structure FitResult where
  params : Params
  init_params : Params

/-- The external optimizer service (lmfit.model.Model.fit): given the composite
model, frequency array, data array, weights and initial parameters it returns
a ModelResult.  Its internals are out of scope, so it is a parameter. -/
def Optimizer : Type :=
  CompositeModel → List ℚ → List CQ → Option (List CE) → Params → FitResult

/-- The Python exceptions raised by the embedded code paths. -/
inductive PyErr
  | typeError (msg : String)
  | attributeError (msg : String)
  | notImplementedError (msg : String)
deriving DecidableEq

/-- A Python value produced by attribute access: a float or None. -/
inductive PyValue
  | num (q : ℚ)
  | noneVal
deriving DecidableEq

/-- A numpy array tagged with its dtype kind, as tested by np.iscomplexobj. -/
inductive DataArray
  | realArr (xs : List ℚ)
  | complexArr (xs : List CQ)

def DataArray.iscomplexobj : DataArray → Bool
  | DataArray.realArr _ => false
  | DataArray.complexArr _ => true

/-- The optional errors argument, likewise tagged with its dtype kind. -/
inductive ErrArray
  | realArr (xs : List ℚ)
  | complexArr (xs : List CE)

def ErrArray.iscomplexobj : ErrArray → Bool
  | ErrArray.realArr _ => false
  | ErrArray.complexArr _ => true

/-- The state stored on self by ResonatorFitter.__init__ (the result field is
written by the fit call that the constructor performs immediately). -/
structure ResonatorFitter where
  frequency : List ℚ
  data : List CQ
  errors : Option (List CE)
  model : CompositeModel
  result : FitResult

/-- Elementwise 1 / errors.real + 1j / errors.imag (base.py line 109). -/
def npWeights (errors : List CE) : List CE :=
  errors.map (fun e => CE.mk (RV.div (RV.fin 1) e.re) (RV.div (RV.fin 1) e.im))

/-- The weights property body: None when no errors were supplied. -/
def npWeightsOpt : Option (List CE) → Option (List CE)
  | none => none
  | some es => some (npWeights es)

/-- ResonatorFitter.weights (base.py lines 100-109). -/
def ResonatorFitter.weights (r : ResonatorFitter) : Option (List CE) :=
  npWeightsOpt r.errors

/-- ResonatorFitter.background_model: self.model.left. -/
def ResonatorFitter.background_model (r : ResonatorFitter) : BackgroundModel :=
  r.model.left

/-- ResonatorFitter.foreground_model: self.model.right. -/
def ResonatorFitter.foreground_model (r : ResonatorFitter) : ResonatorModel :=
  r.model.right

/-- The body of ResonatorFitter.guess (base.py lines 121-142), as a function of
the two models: guess the background on data divided by the foreground
reference point, evaluate the background with that guess, guess the foreground
on data divided by that evaluation, and merge with foreground entries
overriding background entries. -/
def guessParams (bg : BackgroundModel) (fg : ResonatorModel)
    (frequency : List ℚ) (data : List CQ) : Params :=
  let guess := bg.guess (data.map (fun z => CQ.div z fg.reference_point)) frequency
  let background_guess := bg.eval frequency guess
  Params.update guess (fg.guess (List.zipWith CQ.div data background_guess) frequency)

/-- ResonatorFitter.guess. -/
def ResonatorFitter.guess (r : ResonatorFitter) (frequency : List ℚ) (data : List CQ) : Params :=
  guessParams r.background_model r.foreground_model frequency data

/-- The body of ResonatorFitter.fit (base.py lines 144-157): initial parameters
from guess, caller-supplied parameters merged over them, then the optimizer is
invoked with model, frequency, data, weights and the merged parameters. -/
def fitResultOf (opt : Optimizer) (model : CompositeModel) (frequency : List ℚ)
    (data : List CQ) (errors : Option (List CE)) (params : Option Params) : FitResult :=
  let initial_params := guessParams model.left model.right frequency data
  let merged := match params with
    | none => initial_params
    | some p => Params.update initial_params p
  opt model frequency data (npWeightsOpt errors) merged

/-- ResonatorFitter.fit: overwrites self.result with the optimizer output. -/
def ResonatorFitter.fit (opt : Optimizer) (r : ResonatorFitter) (params : Option Params) :
    ResonatorFitter :=
  { r with result := fitResultOf opt r.model r.frequency r.data r.errors params }

/-- ResonatorFitter.__init__ (base.py lines 46-75): validate that data (and
errors, when supplied) are complex-valued, raising TypeError otherwise before
anything is stored; then store the arrays and the composite model and fit
immediately. -/
def ResonatorFitter.init (opt : Optimizer) (frequency : List ℚ) (data : DataArray)
    (foreground_model : ResonatorModel) (background_model : BackgroundModel)
    (errors : Option ErrArray) (params : Option Params) :
    Except PyErr ResonatorFitter :=
  match data with
  | DataArray.realArr _ => Except.error (PyErr.typeError "Resonator data must be complex.")
  | DataArray.complexArr d =>
    match errors with
    | some (ErrArray.realArr _) =>
        Except.error (PyErr.typeError "Resonator errors must be complex.")
    | none =>
        let model := CompositeModel.mk background_model foreground_model
        Except.ok (ResonatorFitter.mk frequency d none model
          (fitResultOf opt model frequency d none params))
    | some (ErrArray.complexArr es) =>
        let model := CompositeModel.mk background_model foreground_model
        Except.ok (ResonatorFitter.mk frequency d (some es) model
          (fitResultOf opt model frequency d (some es) params))

/-- ResonatorFitter.model_values (base.py lines 159-171): evaluate the
composite model, defaulting to the stored frequency and best-fit parameters. -/
def ResonatorFitter.model_values (r : ResonatorFitter)
    (frequency : Option (List ℚ)) (params : Option Params) : List CQ :=
  let ps := match params with
    | none => r.result.params
    | some p => p
  let f := match frequency with
    | none => r.frequency
    | some fs => fs
  CompositeModel.eval r.model f ps

/-- ResonatorFitter.remove_background (base.py lines 184-204): data divided by
the background model evaluated with the current best-fit parameters. -/
def ResonatorFitter.remove_background (r : ResonatorFitter)
    (frequency : List ℚ) (data : List CQ) : List CQ :=
  List.zipWith CQ.div data (r.background_model.eval frequency r.result.params)

/-- ResonatorFitter.invert (base.py lines 241-273): the base class has no
inversion and unconditionally raises NotImplementedError. -/
def ResonatorFitter.invert (r : ResonatorFitter) (scattering_data : List CQ) :
    Except PyErr (List ℚ × List ℚ) :=
  Except.error (PyErr.notImplementedError
    "Subclasses should implement this using their scattering parameter model.")

/-- Python str.endswith, defined on the character list so proofs can compute. -/
def strEndsWith (s suffix : String) : Bool := suffix.data.isSuffixOf s.data

/-- Python slicing s[:-n] (drop the last n characters), on the character list. -/
def strDropRight (s : String) (n : Nat) : String :=
  String.mk (s.data.take (s.data.length - n))

/-- ResonatorFitter.__getattr__ (base.py lines 77-88): names ending in _error
look up the standard error of the base name (which may be None); other names
look up the best-fit value; missing names raise AttributeError.  The Python
messages contain quote characters, elided here. -/
def ResonatorFitter.getattr (r : ResonatorFitter) (attr : String) : Except PyErr PyValue :=
  if strEndsWith attr "_error" then
    let name := strDropRight attr 6
    match r.result.params.lookup name with
    | some p =>
        Except.ok (match p.stderr with
          | some s => PyValue.num s
          | none => PyValue.noneVal)
    | none =>
        Except.error (PyErr.attributeError
          ("Couldnt find error for " ++ name ++ " in self.result"))
  else
    match r.result.params.lookup attr with
    | some p => Except.ok (PyValue.num p.value)
    | none =>
        Except.error (PyErr.attributeError
          ("ResonatorFitter object has no attribute " ++ attr))

/-- Reading attribute name and then using it as a number: a None standard
error used in Python arithmetic raises TypeError. -/
def ResonatorFitter.attrF (r : ResonatorFitter) (name : String) : Except PyErr ℚ :=
  match r.getattr name with
  | Except.ok (PyValue.num q) => Except.ok q
  | Except.ok PyValue.noneVal =>
      Except.error (PyErr.typeError "unsupported operand type NoneType")
  | Except.error e => Except.error e

/-- ResonatorFitter.total_loss: self.internal_loss + self.coupling_loss. -/
def ResonatorFitter.total_loss (r : ResonatorFitter) : Except PyErr ℚ := do
  let i ← r.attrF "internal_loss"
  let c ← r.attrF "coupling_loss"
  return i + c

/-- ResonatorFitter.total_loss_error:
(internal_loss_error ** 2 + coupling_loss_error ** 2) ** (1/2); the base of
the outer power is nonnegative, so the float power is a square root. -/
noncomputable def ResonatorFitter.total_loss_error (r : ResonatorFitter) : Except PyErr ℝ := do
  let i ← r.attrF "internal_loss_error"
  let c ← r.attrF "coupling_loss_error"
  return Real.sqrt ((i : ℝ) ^ 2 + (c : ℝ) ^ 2)

/-- ResonatorFitter.coupling_quality_factor: 1 / self.coupling_loss. -/
def ResonatorFitter.coupling_quality_factor (r : ResonatorFitter) : Except PyErr ℚ := do
  let c ← r.attrF "coupling_loss"
  return 1 / c

/-- ResonatorFitter.coupling_quality_factor_error:
self.coupling_loss_error / self.coupling_loss ** 2. -/
def ResonatorFitter.coupling_quality_factor_error (r : ResonatorFitter) : Except PyErr ℚ := do
  let e ← r.attrF "coupling_loss_error"
  let c ← r.attrF "coupling_loss"
  return e / c ^ 2

/-- ResonatorFitter.internal_quality_factor: 1 / self.internal_loss. -/
def ResonatorFitter.internal_quality_factor (r : ResonatorFitter) : Except PyErr ℚ := do
  let i ← r.attrF "internal_loss"
  return 1 / i

/-- ResonatorFitter.internal_quality_factor_error:
self.internal_loss_error / self.internal_loss ** 2. -/
def ResonatorFitter.internal_quality_factor_error (r : ResonatorFitter) : Except PyErr ℚ := do
  let e ← r.attrF "internal_loss_error"
  let i ← r.attrF "internal_loss"
  return e / i ^ 2

/-- ResonatorFitter.total_quality_factor:
1 / (self.internal_loss + self.coupling_loss). -/
def ResonatorFitter.total_quality_factor (r : ResonatorFitter) : Except PyErr ℚ := do
  let i ← r.attrF "internal_loss"
  let c ← r.attrF "coupling_loss"
  return 1 / (i + c)

/-- ResonatorFitter.total_quality_factor_error:
self.total_loss_error / self.total_loss ** 2. -/
noncomputable def ResonatorFitter.total_quality_factor_error (r : ResonatorFitter) :
    Except PyErr ℝ := do
  let e ← r.total_loss_error
  let t ← r.total_loss
  return e / (t : ℝ) ^ 2

/-- ResonatorFitter.omega_r: 2 * pi * self.resonance_frequency. -/
noncomputable def ResonatorFitter.omega_r (r : ResonatorFitter) : Except PyErr ℝ := do
  let f ← r.attrF "resonance_frequency"
  return 2 * Real.pi * (f : ℝ)

/-- ResonatorFitter.omega_r_error: 2 * pi * self.resonance_frequency_error. -/
noncomputable def ResonatorFitter.omega_r_error (r : ResonatorFitter) : Except PyErr ℝ := do
  let s ← r.attrF "resonance_frequency_error"
  return 2 * Real.pi * (s : ℝ)

/-- ResonatorFitter.coupling_energy_decay_rate: self.omega_r * self.coupling_loss. -/
noncomputable def ResonatorFitter.coupling_energy_decay_rate (r : ResonatorFitter) :
    Except PyErr ℝ := do
  let w ← r.omega_r
  let c ← r.attrF "coupling_loss"
  return w * (c : ℝ)

/-- ResonatorFitter.coupling_energy_decay_rate_error: the rate times
((resonance_frequency_error / resonance_frequency) ** 2
 + (coupling_loss_error / coupling_loss) ** 2) ** (1/2). -/
noncomputable def ResonatorFitter.coupling_energy_decay_rate_error (r : ResonatorFitter) :
    Except PyErr ℝ := do
  let rate ← r.coupling_energy_decay_rate
  let sf ← r.attrF "resonance_frequency_error"
  let vf ← r.attrF "resonance_frequency"
  let sc ← r.attrF "coupling_loss_error"
  let vc ← r.attrF "coupling_loss"
  return rate * Real.sqrt (((sf : ℝ) / (vf : ℝ)) ^ 2 + ((sc : ℝ) / (vc : ℝ)) ^ 2)

/-- ResonatorFitter.internal_energy_decay_rate: self.omega_r * self.internal_loss. -/
noncomputable def ResonatorFitter.internal_energy_decay_rate (r : ResonatorFitter) :
    Except PyErr ℝ := do
  let w ← r.omega_r
  let i ← r.attrF "internal_loss"
  return w * (i : ℝ)

/-- ResonatorFitter.internal_energy_decay_rate_error: the rate times
((resonance_frequency_error / resonance_frequency) ** 2
 + (internal_loss_error / internal_loss) ** 2) ** (1/2). -/
noncomputable def ResonatorFitter.internal_energy_decay_rate_error (r : ResonatorFitter) :
    Except PyErr ℝ := do
  let rate ← r.internal_energy_decay_rate
  let sf ← r.attrF "resonance_frequency_error"
  let vf ← r.attrF "resonance_frequency"
  let si ← r.attrF "internal_loss_error"
  let vi ← r.attrF "internal_loss"
  return rate * Real.sqrt (((sf : ℝ) / (vf : ℝ)) ^ 2 + ((si : ℝ) / (vi : ℝ)) ^ 2)

/-- ResonatorFitter.total_energy_decay_rate:
self.omega_r * (self.internal_loss + self.coupling_loss). -/
noncomputable def ResonatorFitter.total_energy_decay_rate (r : ResonatorFitter) :
    Except PyErr ℝ := do
  let w ← r.omega_r
  let i ← r.attrF "internal_loss"
  let c ← r.attrF "coupling_loss"
  return w * ((i : ℝ) + (c : ℝ))

/-- ResonatorFitter.total_energy_decay_rate_error: the rate times
((resonance_frequency_error / resonance_frequency) ** 2
 + (total_loss_error / total_loss) ** 2) ** (1/2). -/
noncomputable def ResonatorFitter.total_energy_decay_rate_error (r : ResonatorFitter) :
    Except PyErr ℝ := do
  let rate ← r.total_energy_decay_rate
  let sf ← r.attrF "resonance_frequency_error"
  let vf ← r.attrF "resonance_frequency"
  let te ← r.total_loss_error
  let tl ← r.total_loss
  return rate * Real.sqrt (((sf : ℝ) / (vf : ℝ)) ^ 2 + (te / (tl : ℝ)) ^ 2)

/-! ### Concrete fixtures used by witnesses and counterexamples -/

/-- A trivial background model: response equal to the frequency, one
parameter in its guess. -/
def bg0 : BackgroundModel :=
  BackgroundModel.mk
    (fun f _ => f.map (fun q => CQ.mk q 0))
    (fun _ _ => Params.mk [("bg_gain", ParamVal.mk 1 none none none)])

/-- A trivial foreground model with reference point 1. -/
def fg0 : ResonatorModel :=
  ResonatorModel.mk (CQ.mk 1 0)
    (fun f _ => f.map (fun _ => CQ.mk 1 0))
    (fun _ _ => Params.mk [("internal_loss", ParamVal.mk 1 none none none)])

/-- Concrete best-fit parameters returned by the fixture optimizer: physically
positive values with standard errors, plus one parameter (phi) whose stderr
was not computed. -/
def pFixed : Params :=
  Params.mk
    [("resonance_frequency", ParamVal.mk 1000000 (some 2) none none),
     ("coupling_loss", ParamVal.mk (2 / 1000000) (some (1 / 50000000)) none none),
     ("internal_loss", ParamVal.mk (1 / 1000000) (some (1 / 100000000)) none none),
     ("phi", ParamVal.mk 0 none none none)]

/-- A deterministic fixture optimizer: returns pFixed as the best fit and
retains the initial parameters it was given. -/
def opt0 : Optimizer := fun _ _ _ _ p => FitResult.mk pFixed p

def f0 : List ℚ := [1, 2]

def d0 : List CQ := [CQ.mk 0 1, CQ.mk 1 1]

/-- The fitter produced by constructing with the fixtures and no errors. -/
def rcInit : ResonatorFitter :=
  ResonatorFitter.mk f0 d0 none (CompositeModel.mk bg0 fg0)
    (fitResultOf opt0 (CompositeModel.mk bg0 fg0) f0 d0 none none)

/-- A fitter with an error array, for the weights witness. -/
def rcE : ResonatorFitter :=
  ResonatorFitter.mk [1] [CQ.mk 0 1] (some [CE.mk (RV.fin 2) (RV.fin 4)])
    (CompositeModel.mk bg0 fg0) (FitResult.mk pFixed pFixed)

/-- A fitter successfully constructed with mismatched array lengths. -/
def rcMis : ResonatorFitter :=
  ResonatorFitter.mk [1] [CQ.mk 0 1, CQ.mk 0 1] none (CompositeModel.mk bg0 fg0)
    (fitResultOf opt0 (CompositeModel.mk bg0 fg0) [1] [CQ.mk 0 1, CQ.mk 0 1] none none)

/-- The derived-quantity table of the specification, as a predicate on a
fitter whose three physical fit parameters and standard errors are given:
every derived quantity equals its formula, with independent-error
propagation. -/
def derivedOk (r : ResonatorFitter) (vf vi vc sf si sc : ℚ) : Prop :=
  r.total_loss = Except.ok (vi + vc) ∧
  r.total_loss_error = Except.ok (Real.sqrt ((si : ℝ) ^ 2 + (sc : ℝ) ^ 2)) ∧
  r.coupling_quality_factor = Except.ok (1 / vc) ∧
  r.coupling_quality_factor_error = Except.ok (sc / vc ^ 2) ∧
  r.internal_quality_factor = Except.ok (1 / vi) ∧
  r.internal_quality_factor_error = Except.ok (si / vi ^ 2) ∧
  r.total_quality_factor = Except.ok (1 / (vi + vc)) ∧
  r.total_quality_factor_error =
    Except.ok (Real.sqrt ((si : ℝ) ^ 2 + (sc : ℝ) ^ 2) / ((vi : ℝ) + (vc : ℝ)) ^ 2) ∧
  r.omega_r = Except.ok (2 * Real.pi * (vf : ℝ)) ∧
  r.omega_r_error = Except.ok (2 * Real.pi * (sf : ℝ)) ∧
  r.coupling_energy_decay_rate = Except.ok (2 * Real.pi * (vf : ℝ) * (vc : ℝ)) ∧
  r.coupling_energy_decay_rate_error =
    Except.ok (2 * Real.pi * (vf : ℝ) * (vc : ℝ) *
      Real.sqrt (((sf : ℝ) / (vf : ℝ)) ^ 2 + ((sc : ℝ) / (vc : ℝ)) ^ 2)) ∧
  r.internal_energy_decay_rate = Except.ok (2 * Real.pi * (vf : ℝ) * (vi : ℝ)) ∧
  r.internal_energy_decay_rate_error =
    Except.ok (2 * Real.pi * (vf : ℝ) * (vi : ℝ) *
      Real.sqrt (((sf : ℝ) / (vf : ℝ)) ^ 2 + ((si : ℝ) / (vi : ℝ)) ^ 2)) ∧
  r.total_energy_decay_rate = Except.ok (2 * Real.pi * (vf : ℝ) * ((vi : ℝ) + (vc : ℝ))) ∧
  r.total_energy_decay_rate_error =
    Except.ok (2 * Real.pi * (vf : ℝ) * ((vi : ℝ) + (vc : ℝ)) *
      Real.sqrt (((sf : ℝ) / (vf : ℝ)) ^ 2 +
        (Real.sqrt ((si : ℝ) ^ 2 + (sc : ℝ) ^ 2) / ((vi : ℝ) + (vc : ℝ))) ^ 2))

/-! ### Helper lemmas -/

theorem okBind {α β : Type} {e : Type} (x : α) (f : α → Except e β) :
    (Except.ok x >>= f) = f x := rfl

theorem pureOk {α : Type} {e : Type} (x : α) : (pure x : Except e α) = Except.ok x := rfl

/-- Lookup in an updated Parameters object: q entries win on a name clash. -/
theorem Params.lookup_update (p q : Params) (n : String) :
    (Params.update p q).lookup n = optOr (q.lookup n) (p.lookup n) := by
  unfold Params.update Params.lookup
  simp only [List.find?_append]
  cases h : q.entries.find? (fun e => e.1 == n) with
  | none => simp [optOr, h]
  | some v => simp [optOr, h]

theorem CQ.sq_add_sq_ne_zero (w : CQ) (hw : w ≠ CQ.mk 0 0) :
    w.re ^ 2 + w.im ^ 2 ≠ 0 := by
  have h : w.re ≠ 0 ∨ w.im ≠ 0 := by
    by_contra hc
    push_neg at hc
    exact hw (by cases w with
      | mk a b => simp only [CQ.mk.injEq]; exact ⟨hc.1, hc.2⟩)
  rcases h with h | h
  · have h1 : 0 < w.re ^ 2 := lt_of_le_of_ne (sq_nonneg _) (Ne.symm (pow_ne_zero 2 h))
    exact ne_of_gt (add_pos_of_pos_of_nonneg h1 (sq_nonneg _))
  · have h1 : 0 < w.im ^ 2 := lt_of_le_of_ne (sq_nonneg _) (Ne.symm (pow_ne_zero 2 h))
    exact ne_of_gt (add_pos_of_nonneg_of_pos (sq_nonneg _) h1)

/-- Multiplying by a nonzero complex value and then dividing by it is the
identity, componentwise over the rationals. -/
theorem CQ.mul_div_cancel_left (w x : CQ) (hw : w ≠ CQ.mk 0 0) :
    CQ.div (CQ.mul w x) w = x := by
  have hd := CQ.sq_add_sq_ne_zero w hw
  cases w with
  | mk c d =>
    cases x with
    | mk a b =>
      simp only [CQ.mul, CQ.div, CQ.mk.injEq] at *
      constructor
      · field_simp
        ring
      · field_simp
        ring

/-- Elementwise version: the background values cancel out of data they
multiplied, provided they are nonzero and the lengths agree. -/
theorem zip_mul_div (B x : List CQ) (hlen : x.length = B.length)
    (h0 : ∀ b ∈ B, b ≠ CQ.mk 0 0) :
    List.zipWith CQ.div (List.zipWith CQ.mul B x) B = x := by
  induction B generalizing x with
  | nil =>
    cases x with
    | nil => rfl
    | cons a t => simp at hlen
  | cons b bs ih =>
    cases x with
    | nil => simp at hlen
    | cons a t =>
      simp only [List.zipWith, List.cons.injEq]
      constructor
      · exact CQ.mul_div_cancel_left b a (h0 b (List.mem_cons_self b bs))
      · exact ih t (by simpa using hlen) (fun y hy => h0 y (List.mem_cons_of_mem b hy))

/-- Unfolding getattr for a plain (non _error) parameter name. -/
theorem getattr_value (r : ResonatorFitter) (p : String) (pv : ParamVal)
    (hp : strEndsWith p "_error" = false) (h : r.result.params.lookup p = some pv) :
    r.getattr p = Except.ok (PyValue.num pv.value) := by
  unfold ResonatorFitter.getattr
  rw [hp]
  simp [h]

/-- Unfolding getattr for an _error name whose base parameter exists. -/
theorem getattr_stderr (r : ResonatorFitter) (attr base : String) (pv : ParamVal)
    (hp : strEndsWith attr "_error" = true) (hd : strDropRight attr 6 = base)
    (h : r.result.params.lookup base = some pv) :
    r.getattr attr = Except.ok (match pv.stderr with
      | some s => PyValue.num s
      | none => PyValue.noneVal) := by
  unfold ResonatorFitter.getattr
  rw [hp]
  simp [hd, h]

/-- attrF on a plain parameter name yields the best-fit value. -/
theorem attrF_value (r : ResonatorFitter) (p : String) (pv : ParamVal)
    (hp : strEndsWith p "_error" = false) (h : r.result.params.lookup p = some pv) :
    r.attrF p = Except.ok pv.value := by
  unfold ResonatorFitter.attrF
  rw [getattr_value r p pv hp h]

/-- attrF on an _error name whose base parameter has a computed stderr. -/
theorem attrF_stderr (r : ResonatorFitter) (attr base : String) (pv : ParamVal) (s : ℚ)
    (hp : strEndsWith attr "_error" = true) (hd : strDropRight attr 6 = base)
    (h : r.result.params.lookup base = some pv) (hs : pv.stderr = some s) :
    r.attrF attr = Except.ok s := by
  unfold ResonatorFitter.attrF
  rw [getattr_stderr r attr base pv hp hd h, hs]

/-! ### Claim theorems -/

/-- C1: the guess operation first calls the background guess on the data
divided by the foreground reference point (never on the raw data), evaluates
the background model at the frequency array with that background guess, calls
the foreground guess on the original data divided by that evaluation, and
returns the merge of the two parameter sets with foreground entries
overriding background entries on a name clash. -/
theorem guess_two_stage_order (r : ResonatorFitter) (frequency : List ℚ) (data : List CQ) :
    r.guess frequency data =
      Params.update
        (r.background_model.guess
          (data.map (fun z => CQ.div z r.foreground_model.reference_point)) frequency)
        (r.foreground_model.guess
          (List.zipWith CQ.div data
            (r.background_model.eval frequency
              (r.background_model.guess
                (data.map (fun z => CQ.div z r.foreground_model.reference_point)) frequency)))
          frequency) ∧
    ∀ n : String,
      (r.guess frequency data).lookup n =
        optOr
          ((r.foreground_model.guess
            (List.zipWith CQ.div data
              (r.background_model.eval frequency
                (r.background_model.guess
                  (data.map (fun z => CQ.div z r.foreground_model.reference_point)) frequency)))
            frequency).lookup n)
          ((r.background_model.guess
            (data.map (fun z => CQ.div z r.foreground_model.reference_point)) frequency).lookup n) := by
  refine ⟨rfl, fun n => ?_⟩
  exact Params.lookup_update _ _ n

/-- C2: the weights are None exactly when no error array was supplied;
otherwise they are 1/Re(error) + 1j/Im(error) elementwise, so finite nonzero
components a and b give the weight 1/a + (1/b)j, and an error component equal
to (1+1j)*inf gives a weight component of exactly zero. -/
theorem weights_from_errors (r : ResonatorFitter) :
    (r.weights = none ↔ r.errors = none) ∧
    (∀ es : List CE, r.errors = some es → r.weights = some (npWeights es)) ∧
    (∀ a b : ℚ, a ≠ 0 → b ≠ 0 →
      npWeights [CE.mk (RV.fin a) (RV.fin b)] =
        [CE.mk (RV.fin (1 / a)) (RV.fin (1 / b))]) ∧
    npWeights [CE.mulFloat (CE.mk (RV.fin 1) (RV.fin 1)) RV.inf] =
      [CE.mk (RV.fin 0) (RV.fin 0)] := by
  refine ⟨?_, ?_, ?_, ?_⟩
  · unfold ResonatorFitter.weights npWeightsOpt
    cases r.errors <;> simp
  · intro es h
    unfold ResonatorFitter.weights
    rw [h]
    rfl
  · intro a b ha hb
    simp [npWeights, RV.div, ha, hb]
  · norm_num [npWeights, CE.mulFloat, RV.mul, RV.div]

/-- Witness for C2: a fitter with error array [2+4j] has weights [1/2+(1/4)j],
and the weight of the documented exclusion value (1+1j)*inf is exactly 0. -/
theorem weights_from_errors_witness :
    ResonatorFitter.weights rcE = some [CE.mk (RV.fin (1 / 2)) (RV.fin (1 / 4))] ∧
    npWeights [CE.mulFloat (CE.mk (RV.fin 1) (RV.fin 1)) RV.inf] =
      [CE.mk (RV.fin 0) (RV.fin 0)] := by
  have h := weights_from_errors rcE
  refine ⟨?_, h.2.2.2⟩
  have h2 := h.2.1 [CE.mk (RV.fin 2) (RV.fin 4)] rfl
  have h3 := h.2.2.1 2 4 (by norm_num) (by norm_num)
  rw [h2, h3]

/-- C4: remove_background composed with multiplication by the background model
evaluated at the best-fit parameters is the identity on conforming arrays of
nonzero background values (the rational embedding makes the floating-point
tolerance exact). -/
theorem remove_background_roundtrip (r : ResonatorFitter) (f : List ℚ) (x : List CQ)
    (hlen : x.length = (r.background_model.eval f r.result.params).length)
    (h0 : ∀ b ∈ r.background_model.eval f r.result.params, b ≠ CQ.mk 0 0) :
    r.remove_background f
      (List.zipWith CQ.mul (r.background_model.eval f r.result.params) x) = x := by
  unfold ResonatorFitter.remove_background
  exact zip_mul_div _ x hlen h0

/-- Witness for C4: the round trip at the fixture fitter, whose fitted
background evaluates to [1, 2] on the stored frequencies. -/
theorem remove_background_roundtrip_witness :
    ResonatorFitter.remove_background rcInit f0
      (List.zipWith CQ.mul (rcInit.background_model.eval f0 rcInit.result.params)
        [CQ.mk 3 1, CQ.mk 0 5]) = [CQ.mk 3 1, CQ.mk 0 5] :=
  remove_background_roundtrip rcInit f0 [CQ.mk 3 1, CQ.mk 0 5] rfl (by
    intro b hb
    rw [show rcInit.background_model.eval f0 rcInit.result.params =
      [CQ.mk 1 0, CQ.mk 2 0] from rfl] at hb
    have hb2 : b = CQ.mk 1 0 ∨ b = CQ.mk 2 0 := by simpa using hb
    rcases hb2 with h | h <;> subst h <;> simp [CQ.mk.injEq])

/-- C5: constructing with non-complex data, or with a supplied non-complex
error array, fails with the type-mismatch error regardless of the optimizer
and the models, so the failure happens before any guessing or fitting and
before any state is stored. -/
theorem init_rejects_noncomplex (opt : Optimizer) (frequency : List ℚ)
    (fg : ResonatorModel) (bg : BackgroundModel) (params : Option Params) :
    (∀ (xs : List ℚ) (errors : Option ErrArray),
      ResonatorFitter.init opt frequency (DataArray.realArr xs) fg bg errors params =
        Except.error (PyErr.typeError "Resonator data must be complex.")) ∧
    (∀ (d : List CQ) (es : List ℚ),
      ResonatorFitter.init opt frequency (DataArray.complexArr d) fg bg
        (some (ErrArray.realArr es)) params =
        Except.error (PyErr.typeError "Resonator errors must be complex.")) :=
  ⟨fun _ _ => rfl, fun _ _ => rfl⟩

/-- C7: fit obtains its initial parameters by guessing on the construction-time
frequency and data, merges a caller-supplied parameter set over the guess with
caller entries (whole Parameter objects, bounds included) winning on every name
clash, hands the merged set with model, data and weights to the optimizer, and
replaces the stored result wholesale: the previous result does not influence
the new fitter state, and the other fields are untouched. -/
theorem fit_guess_merge_replace (opt : Optimizer) (r : ResonatorFitter) (P : Params) :
    ((ResonatorFitter.fit opt r (some P)).result =
      opt r.model r.frequency r.data (npWeightsOpt r.errors)
        (Params.update (guessParams r.model.left r.model.right r.frequency r.data) P)) ∧
    ((ResonatorFitter.fit opt r none).result =
      opt r.model r.frequency r.data (npWeightsOpt r.errors)
        (guessParams r.model.left r.model.right r.frequency r.data)) ∧
    (∀ n : String,
      (Params.update (guessParams r.model.left r.model.right r.frequency r.data) P).lookup n =
        optOr (P.lookup n)
          ((guessParams r.model.left r.model.right r.frequency r.data).lookup n)) ∧
    (∀ res2 : FitResult,
      ResonatorFitter.fit opt
        (ResonatorFitter.mk r.frequency r.data r.errors r.model res2) (some P) =
        ResonatorFitter.fit opt r (some P)) ∧
    ((ResonatorFitter.fit opt r (some P)).frequency = r.frequency ∧
      (ResonatorFitter.fit opt r (some P)).data = r.data ∧
      (ResonatorFitter.fit opt r (some P)).errors = r.errors ∧
      (ResonatorFitter.fit opt r (some P)).model = r.model) :=
  ⟨rfl, rfl, fun n => Params.lookup_update _ _ n, fun _ => rfl, rfl, rfl, rfl, rfl⟩

/-- C8 (amended): the constructor performs no length validation; for complex
inputs it always succeeds (the external optimizer and models being total) and
stores the frequency, data and error arrays exactly as supplied, whatever
their lengths. -/
theorem init_no_length_validation (opt : Optimizer) (frequency : List ℚ) (d : List CQ)
    (fg : ResonatorModel) (bg : BackgroundModel) (es : Option (List CE))
    (prm : Option Params) :
    ResonatorFitter.init opt frequency (DataArray.complexArr d) fg bg
      (es.map ErrArray.complexArr) prm =
      Except.ok (ResonatorFitter.mk frequency d es (CompositeModel.mk bg fg)
        (fitResultOf opt (CompositeModel.mk bg fg) frequency d es prm)) := by
  cases es <;> rfl

/-- Counterexample for C8: a construction with a frequency array of length 1
and a data array of length 2 completes successfully, so a successfully
constructed fitter need not have equal-length arrays. -/
theorem init_mismatched_lengths_cex :
    ResonatorFitter.init opt0 [1] (DataArray.complexArr [CQ.mk 0 1, CQ.mk 0 1]) fg0 bg0
      none none = Except.ok rcMis ∧
    rcMis.frequency.length = 1 ∧ rcMis.data.length = 2 :=
  ⟨rfl, rfl, rfl⟩

/-- C9: the base contract has no default inversion: invert fails with the
not-implemented error for every fitter and every scattering data array. -/
theorem invert_not_implemented (r : ResonatorFitter) (d : List CQ) :
    r.invert d = Except.error (PyErr.notImplementedError
      "Subclasses should implement this using their scattering parameter model.") := rfl

/-- C10: model_values with no arguments is the composite model (background
times foreground, elementwise) evaluated at the stored frequency array with
the stored best-fit parameters; explicit frequency or params arguments
evaluate the same composite model there instead; and the model stored at
construction is exactly the background times foreground composite. -/
theorem model_values_composite (r : ResonatorFitter) (fo : Option (List ℚ))
    (po : Option Params) :
    (r.model_values fo po =
      CompositeModel.eval r.model (fo.getD r.frequency) (po.getD r.result.params)) ∧
    (CompositeModel.eval r.model (fo.getD r.frequency) (po.getD r.result.params) =
      List.zipWith CQ.mul
        (r.background_model.eval (fo.getD r.frequency) (po.getD r.result.params))
        (r.foreground_model.eval (fo.getD r.frequency) (po.getD r.result.params))) ∧
    (∀ (opt : Optimizer) (f : List ℚ) (d : List CQ) (fg : ResonatorModel)
        (bg : BackgroundModel) (es : Option ErrArray) (prm : Option Params)
        (rr : ResonatorFitter),
      ResonatorFitter.init opt f (DataArray.complexArr d) fg bg es prm = Except.ok rr →
      rr.model.left = bg ∧ rr.model.right = fg) := by
  refine ⟨?_, rfl, ?_⟩
  · cases fo <;> cases po <;> rfl
  · intro opt f d fg bg es prm rr h
    cases es with
    | none =>
      injection h with h2
      rw [← h2]
      exact ⟨rfl, rfl⟩
    | some ea =>
      cases ea with
      | realArr xs => simp [ResonatorFitter.init] at h
      | complexArr es2 =>
        injection h with h2
        rw [← h2]
        exact ⟨rfl, rfl⟩

/-- Witness for C10: the fixture construction stores exactly the composite of
its background and foreground models. -/
theorem model_values_composite_witness :
    rcInit.model.left = bg0 ∧ rcInit.model.right = fg0 :=
  (model_values_composite rcInit none none).2.2 opt0 f0 d0 fg0 bg0 none none rcInit rfl

/-- C3: whenever the fit result holds resonance_frequency, internal_loss and
coupling_loss with computed standard errors and physically positive values,
every derived quantity equals its table formula as a pure function of those
parameters and errors, with independent-error propagation (square roots of
sums of squared absolute or relative contributions). -/
theorem derived_quantities_formulas (r : ResonatorFitter) (vf vi vc sf si sc : ℚ)
    (b1 b2 b3 b4 b5 b6 : Option ℚ)
    (hf : r.result.params.lookup "resonance_frequency" =
      some (ParamVal.mk vf (some sf) b1 b2))
    (hi : r.result.params.lookup "internal_loss" = some (ParamVal.mk vi (some si) b3 b4))
    (hc : r.result.params.lookup "coupling_loss" = some (ParamVal.mk vc (some sc) b5 b6))
    (hvf : 0 < vf) (hvi : 0 < vi) (hvc : 0 < vc) :
    derivedOk r vf vi vc sf si sc := by
  have af : r.attrF "resonance_frequency" = Except.ok vf :=
    attrF_value r _ _ (by decide) hf
  have afe : r.attrF "resonance_frequency_error" = Except.ok sf :=
    attrF_stderr r "resonance_frequency_error" "resonance_frequency" _ sf
      (by decide) (by decide) hf rfl
  have ai : r.attrF "internal_loss" = Except.ok vi := attrF_value r _ _ (by decide) hi
  have aie : r.attrF "internal_loss_error" = Except.ok si :=
    attrF_stderr r "internal_loss_error" "internal_loss" _ si (by decide) (by decide) hi rfl
  have ac : r.attrF "coupling_loss" = Except.ok vc := attrF_value r _ _ (by decide) hc
  have ace : r.attrF "coupling_loss_error" = Except.ok sc :=
    attrF_stderr r "coupling_loss_error" "coupling_loss" _ sc (by decide) (by decide) hc rfl
  have htl : r.total_loss = Except.ok (vi + vc) := by
    simp only [ResonatorFitter.total_loss, ai, ac, okBind, pureOk]
  have htle : r.total_loss_error = Except.ok (Real.sqrt ((si : ℝ) ^ 2 + (sc : ℝ) ^ 2)) := by
    simp only [ResonatorFitter.total_loss_error, aie, ace, okBind, pureOk]
  have hw : r.omega_r = Except.ok (2 * Real.pi * (vf : ℝ)) := by
    simp only [ResonatorFitter.omega_r, af, okBind, pureOk]
  have hrc : r.coupling_energy_decay_rate = Except.ok (2 * Real.pi * (vf : ℝ) * (vc : ℝ)) := by
    simp only [ResonatorFitter.coupling_energy_decay_rate, hw, ac, okBind, pureOk]
  have hri : r.internal_energy_decay_rate = Except.ok (2 * Real.pi * (vf : ℝ) * (vi : ℝ)) := by
    simp only [ResonatorFitter.internal_energy_decay_rate, hw, ai, okBind, pureOk]
  have hrt : r.total_energy_decay_rate =
      Except.ok (2 * Real.pi * (vf : ℝ) * ((vi : ℝ) + (vc : ℝ))) := by
    simp only [ResonatorFitter.total_energy_decay_rate, hw, ai, ac, okBind, pureOk]
  refine ⟨htl, htle, ?_, ?_, ?_, ?_, ?_, ?_, hw, ?_, hrc, ?_, hri, ?_, hrt, ?_⟩
  · simp only [ResonatorFitter.coupling_quality_factor, ac, okBind, pureOk]
  · simp only [ResonatorFitter.coupling_quality_factor_error, ace, ac, okBind, pureOk]
  · simp only [ResonatorFitter.internal_quality_factor, ai, okBind, pureOk]
  · simp only [ResonatorFitter.internal_quality_factor_error, aie, ai, okBind, pureOk]
  · simp only [ResonatorFitter.total_quality_factor, ai, ac, okBind, pureOk]
  · simp only [ResonatorFitter.total_quality_factor_error, htle, htl, okBind, pureOk]
    congr 1
    push_cast
    ring
  · simp only [ResonatorFitter.omega_r_error, afe, okBind, pureOk]
  · simp only [ResonatorFitter.coupling_energy_decay_rate_error, hrc, afe, af, ace, ac,
      okBind, pureOk]
  · simp only [ResonatorFitter.internal_energy_decay_rate_error, hri, afe, af, aie, ai,
      okBind, pureOk]
  · simp only [ResonatorFitter.total_energy_decay_rate_error, hrt, afe, af, htle, htl,
      okBind, pureOk]
    congr 1
    push_cast
    ring

/-- Witness for C3: the table formulas instantiated at the fixture fitter with
resonance_frequency 1000000 ± 2, internal_loss 1e-6 ± 1e-8 and coupling_loss
2e-6 ± 2e-8. -/
theorem derived_quantities_formulas_witness :
    derivedOk rcInit 1000000 (1 / 1000000) (2 / 1000000) 2 (1 / 100000000)
      (1 / 50000000) :=
  derived_quantities_formulas rcInit 1000000 (1 / 1000000) (2 / 1000000) 2
    (1 / 100000000) (1 / 50000000) none none none none none none rfl rfl rfl
    (by norm_num) (by norm_num) (by norm_num)

/-- C6 (amended): a fit parameter name p read through the dynamic fallback
yields its best-fit value, and p_error yields its standard error when one was
computed; when p exists but its stderr is None, reading p_error returns None
rather than failing; the missing-attribute error is raised exactly when the
looked-up name (the base name, for _error reads) is not among the fit
parameters. -/
theorem getattr_parameter_lookup (r : ResonatorFitter) (attr base : String)
    (pv : ParamVal) (s : ℚ) :
    (strEndsWith attr "_error" = false → r.result.params.lookup attr = some pv →
      r.getattr attr = Except.ok (PyValue.num pv.value)) ∧
    (strEndsWith attr "_error" = true → strDropRight attr 6 = base →
      r.result.params.lookup base = some pv → pv.stderr = some s →
      r.getattr attr = Except.ok (PyValue.num s)) ∧
    (strEndsWith attr "_error" = true → strDropRight attr 6 = base →
      r.result.params.lookup base = some pv → pv.stderr = none →
      r.getattr attr = Except.ok PyValue.noneVal) ∧
    (strEndsWith attr "_error" = false → r.result.params.lookup attr = none →
      r.getattr attr = Except.error (PyErr.attributeError
        ("ResonatorFitter object has no attribute " ++ attr))) ∧
    (strEndsWith attr "_error" = true → strDropRight attr 6 = base →
      r.result.params.lookup base = none →
      r.getattr attr = Except.error (PyErr.attributeError
        ("Couldnt find error for " ++ base ++ " in self.result"))) := by
  refine ⟨?_, ?_, ?_, ?_, ?_⟩
  · intro h1 h2
    exact getattr_value r attr pv h1 h2
  · intro h1 h2 h3 h4
    rw [getattr_stderr r attr base pv h1 h2 h3, h4]
  · intro h1 h2 h3 h4
    rw [getattr_stderr r attr base pv h1 h2 h3, h4]
  · intro h1 h2
    unfold ResonatorFitter.getattr
    rw [h1]
    simp [h2]
  · intro h1 h2 h3
    unfold ResonatorFitter.getattr
    rw [h1]
    simp [h2, h3]

/-- Witness for C6: at the fixture fitter, internal_loss reads back its
best-fit value, internal_loss_error its standard error, phi_error (stderr not
computed) reads None, and the unknown name zeta raises AttributeError both as
a value read and as an error read. -/
theorem getattr_parameter_lookup_witness :
    rcInit.getattr "internal_loss" = Except.ok (PyValue.num (1 / 1000000)) ∧
    rcInit.getattr "internal_loss_error" = Except.ok (PyValue.num (1 / 100000000)) ∧
    rcInit.getattr "phi_error" = Except.ok PyValue.noneVal ∧
    rcInit.getattr "zeta" = Except.error (PyErr.attributeError
      "ResonatorFitter object has no attribute zeta") ∧
    rcInit.getattr "zeta_error" = Except.error (PyErr.attributeError
      "Couldnt find error for zeta in self.result") := by
  refine ⟨?_, ?_, ?_, ?_, ?_⟩
  · exact (getattr_parameter_lookup rcInit "internal_loss" "internal_loss"
      (ParamVal.mk (1 / 1000000) (some (1 / 100000000)) none none) 0).1 (by decide) rfl
  · exact (getattr_parameter_lookup rcInit "internal_loss_error" "internal_loss"
      (ParamVal.mk (1 / 1000000) (some (1 / 100000000)) none none)
      (1 / 100000000)).2.1 (by decide) (by decide) rfl rfl
  · exact (getattr_parameter_lookup rcInit "phi_error" "phi"
      (ParamVal.mk 0 none none none) 0).2.2.1 (by decide) (by decide) rfl rfl
  · exact (getattr_parameter_lookup rcInit "zeta" "zeta"
      (ParamVal.mk 0 none none none) 0).2.2.2.1 (by decide) rfl
  · exact (getattr_parameter_lookup rcInit "zeta_error" "zeta"
      (ParamVal.mk 0 none none none) 0).2.2.2.2 (by decide) (by decide) rfl

/-- Counterexample for C6: phi is a recognized fit parameter of the fixture
fitter whose standard error was not computed; the claim predicts a
missing-attribute failure for phi_error, but the access succeeds and returns
None. -/
theorem getattr_stderr_none_cex :
    rcInit.result.params.lookup "phi" = some (ParamVal.mk 0 none none none) ∧
    rcInit.getattr "phi_error" = Except.ok PyValue.noneVal ∧
    (rcInit.getattr "phi_error").isOk = true :=
  ⟨rfl, rfl, rfl⟩

end Resonator
